import Mathlib

/-!
Shallow embedding of `src/aide/backend/backend_openai.py` (the aide OpenAI
backend) together with proofs about its behaviour.

Modelling conventions:

* Python exceptions are explicit values: a Python function that can raise is
  embedded as a function returning `Except`/`Option` or a dedicated result
  inductive, and every `try`/`except` of the source becomes an explicit case
  split on that value.
* The OpenAI SDK client and the HTTP endpoint are external collaborators.  The
  remote call `_client.chat.completions.create` is abstracted as an oracle of
  type `Request → Nat → Except ApiError Completion`, mapping the transmitted
  request and the attempt number to the outcome of that attempt.
* `json.loads` is an external collaborator.  It is abstracted as a function
  `String → Option Json` where `Option.none` models `json.JSONDecodeError`;
  `jsonLoadsFlat` below is one concrete executable instance of it, covering
  flat JSON objects with string keys and string values.
* The helpers imported from `aide/backend/utils.py` (`FunctionSpec`,
  `opt_messages_to_list`, `backoff_create`) are repository code that is not
  part of the available sources; they are modelled from the specification and
  each such definition is marked `Modelled from the spec:`.
* The `funcy.once` decorator and the `asyncio.subprocess` module are external
  libraries; their documented behaviour (marking the call done before running
  the body under a lock, resp. the list of public module members) is embedded
  directly.
-/

namespace AideOpenAI

/-- Python-like values, used for the model keyword arguments of `query`
(`**model_kwargs`) and the tool dictionaries injected for a function spec.
`PyVal.none` is Python's `None`. -/
inductive PyVal where
  | none
  | bool (b : Bool)
  | int (n : Int)
  | str (s : String)
  | list (xs : List PyVal)
  | dict (kvs : List (String × PyVal))

/-- Decoded JSON values, the possible results of the external `json.loads`
collaborator. -/
inductive Json where
  | null
  | bool (b : Bool)
  | num (n : Int)
  | str (s : String)
  | arr (xs : List Json)
  | obj (kvs : List (String × Json))

/-- `tool_call.function` of an OpenAI chat completion: a name and a serialized
arguments string. -/
structure ToolFunction where
  name : String
  arguments : String

/-- A tool call attached to a response message. -/
structure ToolCall where
  function : ToolFunction

/-- `choice.message` of an OpenAI chat completion.  `content` may be `None`
(free text absent) and `tool_calls` may be empty (Python: falsy). -/
structure Message where
  content : Option String
  tool_calls : List ToolCall

/-- One choice of a chat completion. -/
structure Choice where
  message : Message

/-- `completion.usage`: prompt/completion token counters. -/
structure Usage where
  prompt_tokens : Nat
  completion_tokens : Nat

/-- A chat completion as returned by the remote endpoint. -/
structure Completion where
  choices : List Choice
  usage : Usage
  system_fingerprint : String
  model : String
  created : Nat

/-- Modelled from the spec: `FunctionSpec` lives in `aide/backend/utils.py`,
which is not among the sources.  Per the spec it is "an externally supplied
descriptor of a callable's name, parameter schema, and invocation-forcing
directive"; `backend_openai.py` reads its `name`, `as_openai_tool_dict` and
`openai_tool_choice_dict` attributes. -/
structure FunctionSpec where
  name : String
  as_openai_tool_dict : PyVal
  openai_tool_choice_dict : PyVal

/-- One chat message of the request payload. -/
structure ChatMessage where
  role : String
  content : String

/-- Modelled from the spec: `opt_messages_to_list` lives in
`aide/backend/utils.py`, which is not among the sources.  Per the spec it
"assembles the ordered message list from optional system and user text,
honoring a mode flag that — when set — demotes a system-role message into a
user-role message". -/
def opt_messages_to_list (system_message user_message : Option String)
    (convert_system_to_user : Bool) : List ChatMessage :=
  (match system_message with
   | Option.none => []
   | Option.some s => [⟨if convert_system_to_user then "user" else "system", s⟩]) ++
  (match user_message with
   | Option.none => []
   | Option.some u => [⟨"user", u⟩])

/-- The exception classes that a remote call can raise, flattened.  The first
four constructors are the members of `OPENAI_TIMEOUT_EXCEPTIONS` in the
source; the remaining ones model arbitrary other OpenAI SDK exception
classes. -/
inductive ApiError where
  | rateLimitError
  | apiConnectionError
  | apiTimeoutError
  | internalServerError
  | badRequestError
  | authenticationError
  | otherError (name : String)
  deriving BEq, DecidableEq

/-- `OPENAI_TIMEOUT_EXCEPTIONS` from the source: the whitelist of transient
failure classes handed to `backoff_create`. -/
def OPENAI_TIMEOUT_EXCEPTIONS : List ApiError :=
  [ApiError.rateLimitError, ApiError.apiConnectionError,
   ApiError.apiTimeoutError, ApiError.internalServerError]

/-- The detail of an `AssertionError` raised by `query`: either the first
choice had no tool call (the error message embeds the offending message), or
the tool-call name differed from the function spec's name. -/
inductive AssertDetail where
  | emptyToolCalls (offending : Message)
  | nameMismatch

/-- The exceptions that can escape `query`:  a remote-call failure propagated
out of `backoff_create`, an assertion-style contract violation, a JSON decode
failure re-raised after logging the raw offending payload (the payload is
carried in the value), or the `IndexError` of `completion.choices[0]` on an
empty choice list. -/
inductive QError where
  | apiError (e : ApiError)
  | assertionError (detail : AssertDetail)
  | jsonDecodeError (payload : String)
  | indexError

/-- funcy's `notnone` predicate: `lambda x: x is not None`. -/
def notnone : PyVal → Bool
  | PyVal.none => false
  | _ => true

/-- `select_values(notnone, model_kwargs)` of the source (funcy):  keep the
entries whose value is not `None`. -/
def select_values_notnone (d : List (String × PyVal)) : List (String × PyVal) :=
  d.filter (fun kv => notnone kv.2)

/-- First-match lookup in a Python dict modelled as an association list. -/
def dictGet (d : List (String × PyVal)) (k : String) : Option PyVal :=
  match d.find? (fun kv => kv.1 = k) with
  | Option.some kv => Option.some kv.2
  | Option.none => Option.none

/-- `d[k] = v` on a Python dict modelled as an association list: overwrite the
entry in place if the key is present, otherwise append it. -/
def dictSet (d : List (String × PyVal)) (k : String) (v : PyVal) :
    List (String × PyVal) :=
  if d.any (fun kv => kv.1 = k) then
    d.map (fun kv => if kv.1 = k then (k, v) else kv)
  else d ++ [(k, v)]

/-- The keyword arguments transmitted to the remote call, from the source:
`filtered_kwargs = select_values(notnone, model_kwargs)`, and when a function
spec is supplied, `filtered_kwargs["tools"] = [func_spec.as_openai_tool_dict]`
and `filtered_kwargs["tool_choice"] = func_spec.openai_tool_choice_dict`. -/
def filtered_kwargs (func_spec : Option FunctionSpec)
    (model_kwargs : List (String × PyVal)) : List (String × PyVal) :=
  let filtered := select_values_notnone model_kwargs
  match func_spec with
  | Option.none => filtered
  | Option.some spec =>
      dictSet (dictSet filtered "tools" (PyVal.list [spec.as_openai_tool_dict]))
        "tool_choice" spec.openai_tool_choice_dict

/-- The payload handed to `_client.chat.completions.create`: the assembled
message list plus the filtered keyword arguments. -/
structure Request where
  messages : List ChatMessage
  kwargs : List (String × PyVal)

/-- The request transmitted by `query` for the given arguments. -/
def buildRequest (system_message user_message : Option String)
    (convert_system_to_user : Bool) (func_spec : Option FunctionSpec)
    (model_kwargs : List (String × PyVal)) : Request :=
  ⟨opt_messages_to_list system_message user_message convert_system_to_user,
   filtered_kwargs func_spec model_kwargs⟩

/-- Modelled from the spec: `backoff_create` lives in
`aide/backend/utils.py`, which is not among the sources.  Per the spec it
"wraps an arbitrary call with bounded retry over a caller-supplied exception
whitelist", "applying bounded retry with exponential backoff and randomized
jitter"; "any other failure class propagates immediately, uncaught".

`create_fn` is the attempt oracle, `fuel` the number of retries still
allowed after the current attempt, `attempt` the index of the current
attempt.  The second component collects the backoff delays slept between
attempts. -/
def backoffAux (create_fn : Nat → Except ApiError α)
    (retry_exceptions : List ApiError) (delay : Nat → Nat) :
    Nat → Nat → Except ApiError α × List Nat
  | fuel, attempt =>
    match create_fn attempt, fuel with
    | Except.ok a, _ => (Except.ok a, [])
    | Except.error e, 0 => (Except.error e, [])
    | Except.error e, f + 1 =>
      if retry_exceptions.contains e then
        let r := backoffAux create_fn retry_exceptions delay f (attempt + 1)
        (r.1, delay attempt :: r.2)
      else (Except.error e, [])

/-- Modelled from the spec: the entry point of the retry helper, starting at
attempt `0` with `maxRetries` retries allowed. -/
def backoff_create (create_fn : Nat → Except ApiError α)
    (retry_exceptions : List ApiError) (delay : Nat → Nat)
    (maxRetries : Nat) : Except ApiError α × List Nat :=
  backoffAux create_fn retry_exceptions delay maxRetries 0

/-- Modelled from the spec: an exponential-backoff delay with randomized
jitter, capped at `maxValue` ("delay strategy between retry attempts, growing
exponentially with added randomization").  The jitter is an arbitrary
function of the attempt index. -/
def expo_delay (factor maxValue : Nat) (jitter : Nat → Nat) (attempt : Nat) :
    Nat :=
  min maxValue (factor * 2 ^ attempt + jitter attempt)

/-- The normalized output of `query`: free text (possibly `None`) when no
function spec was supplied, a decoded structured value otherwise. -/
inductive OutputType where
  | text (content : Option String)
  | structured (value : Json)

/-- The metadata mapping returned by `query`. -/
structure CompletionInfo where
  system_fingerprint : String
  model : String
  created : Nat

/-- The result tuple of `query` (the wall-clock `req_time` component is a real
time measurement and is not embedded; the list of backoff delays is returned
alongside instead). -/
structure QueryResult where
  output : OutputType
  in_tokens : Nat
  out_tokens : Nat
  info : CompletionInfo

/-- Response decoding of `query`, from the source: take `choices[0]`; without
a function spec the output is the message's free-text content; with a
function spec assert that the message has a tool call, assert that the first
tool call's name equals the spec's name, then `json.loads` its arguments,
re-raising a decode failure with the raw payload. -/
def queryDecode (func_spec : Option FunctionSpec)
    (jsonLoads : String → Option Json) (completion : Completion) :
    Except QError OutputType :=
  match completion.choices with
  | [] => Except.error QError.indexError
  | choice :: _ =>
    match func_spec with
    | Option.none => Except.ok (OutputType.text choice.message.content)
    | Option.some spec =>
      match choice.message.tool_calls with
      | [] => Except.error (QError.assertionError
                (AssertDetail.emptyToolCalls choice.message))
      | tc :: _ =>
        if tc.function.name = spec.name then
          match jsonLoads tc.function.arguments with
          | Option.some v => Except.ok (OutputType.structured v)
          | Option.none =>
              Except.error (QError.jsonDecodeError tc.function.arguments)
        else Except.error (QError.assertionError AssertDetail.nameMismatch)

/-- Assembling the result tuple of `query` from the decoded output and the
completion's usage and metadata fields. -/
def mkResult (out : OutputType) (completion : Completion) : QueryResult :=
  { output := out,
    in_tokens := completion.usage.prompt_tokens,
    out_tokens := completion.usage.completion_tokens,
    info := { system_fingerprint := completion.system_fingerprint,
              model := completion.model,
              created := completion.created } }

/-- The tail of `query` after the retried remote call: propagate a remote
failure unchanged, otherwise decode the completion. -/
def queryFinish (func_spec : Option FunctionSpec)
    (jsonLoads : String → Option Json)
    (r : Except ApiError Completion × List Nat) :
    Except QError QueryResult × List Nat :=
  match r with
  | (Except.error e, ds) => (Except.error (QError.apiError e), ds)
  | (Except.ok completion, ds) =>
    match queryDecode func_spec jsonLoads completion with
    | Except.error e => (Except.error e, ds)
    | Except.ok out => (Except.ok (mkResult out completion), ds)

/-- `query` from the source, with the remote call through the shared client
handle abstracted as the oracle `oracle` (the broken client construction path
is modelled separately by `setup_openai_client_step`).  The returned list is
the backoff delays slept inside `backoff_create`. -/
def query (system_message user_message : Option String)
    (convert_system_to_user : Bool) (func_spec : Option FunctionSpec)
    (model_kwargs : List (String × PyVal))
    (oracle : Request → Nat → Except ApiError Completion)
    (delay : Nat → Nat) (maxRetries : Nat)
    (jsonLoads : String → Option Json) :
    Except QError QueryResult × List Nat :=
  queryFinish func_spec jsonLoads
    (backoff_create
      (oracle (buildRequest system_message user_message convert_system_to_user
        func_spec model_kwargs))
      OPENAI_TIMEOUT_EXCEPTIONS delay maxRetries)

/-- Splitting a line into whitespace-separated fields, as Python's
`line.strip().split()` does: split on runs of whitespace, dropping empty
fields. -/
def splitWSAux : List Char → List Char → List String
  | [], acc => if acc.isEmpty then [] else [String.mk acc.reverse]
  | c :: cs, acc =>
    if c.isWhitespace then
      (if acc.isEmpty then splitWSAux cs [] else
        String.mk acc.reverse :: splitWSAux cs [])
    else splitWSAux cs (c :: acc)

/-- `line.strip().split()` of the source. -/
def pySplitWS (s : String) : List String :=
  splitWSAux s.data []

/-- The value of one hexadecimal digit. -/
def hexDigitVal (c : Char) : Option Nat :=
  if '0' ≤ c ∧ c ≤ '9' then Option.some (c.toNat - '0'.toNat)
  else if 'a' ≤ c ∧ c ≤ 'f' then Option.some (c.toNat - 'a'.toNat + 10)
  else if 'A' ≤ c ∧ c ≤ 'F' then Option.some (c.toNat - 'A'.toNat + 10)
  else Option.none

/-- Python's `int(s, 16)` on a plain string of hexadecimal digits;
`Option.none` models the `ValueError` raised on any other string. -/
def parseHexNat (s : String) : Option Nat :=
  if s.data.isEmpty then Option.none
  else s.data.foldl
    (fun acc c => acc.bind (fun n => (hexDigitVal c).map (fun d => n * 16 + d)))
    (Option.some 0)

/-- `socket.inet_ntoa(struct.pack("<I", n))` of the source: the little-endian
bytes of `n` printed as a dotted quad (`/proc/net/route` stores addresses in
reversed byte order, which this corrects). -/
def littleEndianIPv4 (n : Nat) : String :=
  toString (n % 256) ++ "." ++ toString (n / 256 % 256) ++ "." ++
    toString (n / 65536 % 256) ++ "." ++ toString (n / 16777216 % 256)

/-- The outcome of processing one line of `/proc/net/route` inside the `try`
block of `get_docker_host_ip`: skip it (`continue`, or condition not met),
abort the whole tier with an exception, or return a resolved address. -/
inductive LineResult where
  | skip
  | abort
  | ret (ip : String)
  deriving BEq, DecidableEq

/-- One iteration of the route-table loop of `get_docker_host_ip`.  Lines
splitting into fewer than 3 fields are skipped (`continue`); on a line with
exactly 3 fields the access `parts[3]` raises `IndexError` (abort); a flags
field that is not hexadecimal raises `ValueError` in `int(parts[3], 16)`
(abort); a line qualifies when its destination field is `"00000000"` and both
`RTF_UP` (0x0001) and `RTF_GATEWAY` (0x0002) are set in the flags, in which
case the gateway hex is parsed (`ValueError` aborts; a value not fitting 32
bits makes `struct.pack("<I", ...)` raise, abort) and the byte-order-corrected
address is returned. -/
def processRouteLine (line : String) : LineResult :=
  match pySplitWS line with
  | _p0 :: p1 :: p2 :: rest =>
    (match rest with
     | [] => LineResult.abort
     | p3 :: _ =>
       match parseHexNat p3 with
       | Option.none => LineResult.abort
       | Option.some flags =>
         if p1 = "00000000" ∧ flags &&& 0x0003 = 0x0003 then
           match parseHexNat p2 with
           | Option.none => LineResult.abort
           | Option.some g =>
             if g < 2 ^ 32 then LineResult.ret (littleEndianIPv4 g)
             else LineResult.abort
         else LineResult.skip)
  | _ => LineResult.skip

/-- The overall outcome of the route-table tier's loop: an address was
returned, an exception aborted the `try` block, or the loop fell through. -/
inductive RouteTier where
  | found (ip : String)
  | exc
  | fallthrough
  deriving BEq, DecidableEq

/-- The route-table loop of `get_docker_host_ip` over the non-header lines:
the first non-skipped line decides the outcome. -/
def processRouteLines : List String → RouteTier
  | [] => RouteTier.fallthrough
  | l :: rest =>
    match processRouteLine l with
    | LineResult.skip => processRouteLines rest
    | LineResult.abort => RouteTier.exc
    | LineResult.ret ip => RouteTier.found ip

/-- The environment a resolution runs in: the outcome of opening and reading
`/proc/net/route` (`Option.none` models any `OSError`; otherwise the list of
lines returned by `readlines()`), and the outcome of
`socket.gethostbyname("host.docker.internal")` (`Option.none` models a DNS
failure). -/
structure Env where
  routeFile : Option (List String)
  dns : Option String

/-- The route-table tier of `get_docker_host_ip` (tier 2 of the source): the
header line is skipped (`readlines()[1:]`), and both an exception inside the
`try` block and a loop that finds no qualifying row fall through with no
address. -/
def routeTier (routeFile : Option (List String)) : Option String :=
  match routeFile with
  | Option.none => Option.none
  | Option.some lines =>
    match processRouteLines (lines.drop 1) with
    | RouteTier.found ip => Option.some ip
    | _ => Option.none

/-- Tiers 3 and 4 of `get_docker_host_ip`: DNS resolution of
`host.docker.internal`, then the hard-coded bridge address. -/
def dnsFallback : Option String → String
  | Option.some resolved => resolved
  | Option.none => "172.17.0.1"

/-- `get_docker_host_ip` from the source (the env-var tier is commented out
there): route table first, then DNS, then the hard-coded constant. -/
def get_docker_host_ip (env : Env) : String :=
  match routeTier env.routeFile with
  | Option.some ip => ip
  | Option.none => dnsFallback env.dns

/-- The client handle configuration constructed by `_setup_openai_client`. -/
structure ClientConfig where
  base_url : String
  api_key : String
  max_retries : Nat

/-- A Python exception escaping the setup path. -/
inductive PyExc where
  | attributeError (msg : String)

/-- The public members of the `asyncio.subprocess` module (the module the
source imports via `from asyncio import subprocess`); it exposes no `run`
attribute, so `subprocess.run(...)` raises `AttributeError`. -/
def asyncioSubprocessMembers : List String :=
  ["create_subprocess_exec", "create_subprocess_shell", "Process",
   "PIPE", "STDOUT", "DEVNULL"]

/-- The process-wide state behind `_setup_openai_client`: the `funcy.once`
done-flag, the `_client` global (initially `None`), and a count of host
resolutions performed (for stating the at-most-once property). -/
structure SetupState where
  done : Bool
  client : Option ClientConfig
  resolutions : Nat

/-- The state at process start: not done, `_client = None`. -/
def startSetupState : SetupState := ⟨false, Option.none, 0⟩

/-- The body of `_setup_openai_client` from the source: resolve the host,
then call `subprocess.run(["curl", ...])` — which raises `AttributeError`
because the imported `asyncio.subprocess` module has no `run` member — and
only afterwards construct the client bound to
`http://{docker_host_ip}:8000/v1` with the placeholder key and
`max_retries=0`. -/
def setup_openai_client_body (env : Env) (st : SetupState) :
    Except PyExc Unit × SetupState :=
  let docker_host_ip := get_docker_host_ip env
  let st1 := { st with resolutions := st.resolutions + 1 }
  if asyncioSubprocessMembers.contains "run" then
    (Except.ok (),
     { st1 with client :=
        Option.some ⟨"http://" ++ docker_host_ip ++ ":8000/v1", "testkey", 0⟩ })
  else
    (Except.error (PyExc.attributeError
      "module asyncio.subprocess has no attribute run"), st1)

/-- One invocation of the `funcy.once`-wrapped `_setup_openai_client`: if the
call is already recorded as done, return immediately without touching the
body; otherwise record it as done and then run the body (so an exception in
the body still leaves the call marked done). -/
def setup_openai_client_step (env : Env) (st : SetupState) :
    Except PyExc Unit × SetupState :=
  if st.done then (Except.ok (), st)
  else setup_openai_client_body env { st with done := true }

/-- The state after `n` sequential invocations of `_setup_openai_client`
(concurrent invocations are serialized by the lock held by `funcy.once`). -/
def setupTrace (env : Env) : Nat → SetupState
  | 0 => startSetupState
  | n + 1 => (setup_openai_client_step env (setupTrace env n)).2

/-- The character `{`. -/
def lbrace : Char := Char.ofNat 123

/-- The character `}`. -/
def rbrace : Char := Char.ofNat 125

/-- Drop leading whitespace. -/
def skipWS : List Char → List Char
  | [] => []
  | c :: cs => if c.isWhitespace then skipWS cs else c :: cs

/-- Read a JSON string literal without escapes, after the opening quote:
accumulate until the closing quote. -/
def parseJStrAux : List Char → List Char → Option (String × List Char)
  | [], _ => Option.none
  | c :: cs, acc =>
    if c = '"' then Option.some (String.mk acc.reverse, cs)
    else parseJStrAux cs (c :: acc)

/-- Read a JSON string literal without escapes. -/
def parseJStr : List Char → Option (String × List Char)
  | [] => Option.none
  | c :: cs => if c = '"' then parseJStrAux cs [] else Option.none

/-- Read a comma-separated sequence of `"key": "value"` pairs. -/
def parseFlatPairs : Nat → List Char → Option (List (String × String) × List Char)
  | 0, _ => Option.none
  | f + 1, cs =>
    match parseJStr (skipWS cs) with
    | Option.none => Option.none
    | Option.some (k, cs1) =>
      match skipWS cs1 with
      | [] => Option.none
      | c :: cs3 =>
        if c = ':' then
          match parseJStr (skipWS cs3) with
          | Option.none => Option.none
          | Option.some (v, cs5) =>
            match skipWS cs5 with
            | c2 :: cs7 =>
              if c2 = ',' then
                match parseFlatPairs f cs7 with
                | Option.none => Option.none
                | Option.some (ps, restCs) =>
                    Option.some ((k, v) :: ps, restCs)
              else Option.some ([(k, v)], c2 :: cs7)
            | [] => Option.some ([(k, v)], [])
        else Option.none

/-- A concrete executable instance of the external `json.loads`
collaborator, covering flat JSON objects with string keys and string values
(no escapes); every other input is a decode failure. -/
def jsonLoadsFlat (s : String) : Option Json :=
  match skipWS s.data with
  | [] => Option.none
  | c :: cs1 =>
    if c = lbrace then
      match skipWS cs1 with
      | [] => Option.none
      | c2 :: cs2 =>
        if c2 = rbrace then
          (if (skipWS cs2).isEmpty then Option.some (Json.obj []) else Option.none)
        else
          match parseFlatPairs (cs1.length + 1) (c2 :: cs2) with
          | Option.none => Option.none
          | Option.some (pairs, restCs) =>
            match skipWS restCs with
            | c3 :: cs3 =>
              if c3 = rbrace ∧ (skipWS cs3).isEmpty then
                Option.some (Json.obj
                  (pairs.map (fun kv => (kv.1, Json.str kv.2))))
              else Option.none
            | [] => Option.none
    else Option.none

/-- A concrete function spec used in examples: the `"get_weather"` tool. -/
def demoSpec : FunctionSpec :=
  ⟨"get_weather", PyVal.dict [("type", PyVal.str "function")],
   PyVal.dict [("type", PyVal.str "function")]⟩

/-- The arguments payload `{"city": "Paris"}`. -/
def weatherArgs : String := "\x7b\"city\": \"Paris\"\x7d"

/-- The decoded mapping `{"city": "Paris"}`. -/
def weatherJson : Json := Json.obj [("city", Json.str "Paris")]

/-- A concrete usage record. -/
def demoUsage : Usage := ⟨17, 5⟩

/-- A message carrying a well-formed `get_weather` tool call. -/
def demoToolMsg : Message := ⟨Option.none, [⟨⟨"get_weather", weatherArgs⟩⟩]⟩

/-- A completion whose first choice carries a well-formed tool call. -/
def demoCompletion : Completion :=
  ⟨[⟨demoToolMsg⟩], demoUsage, "fp_alpha", "model-x", 1712345678⟩

/-- A message with free-text content and no tool call. -/
def emptyToolMsg : Message := ⟨Option.some "hello", []⟩

/-- A completion whose first choice has no tool call. -/
def emptyToolCompletion : Completion :=
  ⟨[⟨emptyToolMsg⟩], demoUsage, "fp_alpha", "model-x", 1712345678⟩

/-- A message whose tool call names a different function. -/
def mismatchMsg : Message := ⟨Option.none, [⟨⟨"other_fn", weatherArgs⟩⟩]⟩

/-- A completion whose first tool call has a mismatched name. -/
def mismatchCompletion : Completion :=
  ⟨[⟨mismatchMsg⟩], demoUsage, "fp_alpha", "model-x", 1712345678⟩

/-- A message whose tool call carries the malformed payload `{city:}`. -/
def badArgsMsg : Message :=
  ⟨Option.none, [⟨⟨"get_weather", "\x7bcity:\x7d"⟩⟩]⟩

/-- A completion whose first tool call has malformed arguments. -/
def badArgsCompletion : Completion :=
  ⟨[⟨badArgsMsg⟩], demoUsage, "fp_alpha", "model-x", 1712345678⟩

/-- An oracle answering every attempt with the given completion. -/
def constOracle (c : Completion) : Request → Nat → Except ApiError Completion :=
  fun _ _ => Except.ok c

/-- A concrete backoff delay function. -/
def demoDelay : Nat → Nat := fun n => n + 1

/-- An attempt oracle that is rate-limited on attempts 0 and 1 and succeeds
on attempt 2. -/
def c3Call : Nat → Except ApiError Completion :=
  fun n => if n < 2 then Except.error ApiError.rateLimitError
           else Except.ok demoCompletion

/-- An attempt oracle that always fails with a non-whitelisted class. -/
def c3BadCall : Nat → Except ApiError Completion :=
  fun _ => Except.error ApiError.badRequestError

/-- A `/proc/net/route` header line. -/
def c5Hdr : String :=
  "Iface\tDestination\tGateway\tFlags\tRefCnt\tUse\tMetric\tMask\tMTU\tWindow\tIRTT"

/-- A malformed route line with exactly 3 fields. -/
def c5Bad : String := "eth0\t00000000\t0100000A"

/-- A qualifying default-route line: destination `00000000`, flags `0003`
(up and gateway), gateway `0101A8C0` (i.e. 192.168.1.1 after byte-order
correction). -/
def c5Good : String :=
  "eth0\t00000000\t0101A8C0\t0003\t0\t0\t0\t00000000\t0\t0\t0"

/-- A routing table whose qualifying row sits behind a malformed 3-field
line, with DNS available. -/
def c5Env : Env :=
  ⟨Option.some [c5Hdr, c5Bad, c5Good], Option.some "10.10.10.10"⟩

/-- An environment without a routing table but with DNS. -/
def c4EnvA : Env := ⟨Option.none, Option.some "192.168.65.2"⟩

/-- An environment without a routing table and without DNS. -/
def c4EnvB : Env := ⟨Option.none, Option.none⟩

/-- A concrete environment for the setup path. -/
def c6Env : Env := ⟨Option.none, Option.none⟩

/-! ### Helper lemmas -/

theorem backoffAux_ok {α : Type} (create_fn : Nat → Except ApiError α)
    (re : List ApiError) (d : Nat → Nat) (fuel attempt : Nat) (a : α)
    (h : create_fn attempt = Except.ok a) :
    backoffAux create_fn re d fuel attempt = (Except.ok a, []) := by
  cases fuel <;> simp [backoffAux, h]

theorem backoffAux_zero {α : Type} (create_fn : Nat → Except ApiError α)
    (re : List ApiError) (d : Nat → Nat) (attempt : Nat) (e : ApiError)
    (h : create_fn attempt = Except.error e) :
    backoffAux create_fn re d 0 attempt = (Except.error e, []) := by
  simp [backoffAux, h]

theorem backoffAux_noRetry {α : Type} (create_fn : Nat → Except ApiError α)
    (re : List ApiError) (d : Nat → Nat) (fuel attempt : Nat) (e : ApiError)
    (h : create_fn attempt = Except.error e) (hw : re.contains e = false) :
    backoffAux create_fn re d fuel attempt = (Except.error e, []) := by
  cases fuel <;> simp [backoffAux, h, hw]

theorem backoffAux_retry {α : Type} (create_fn : Nat → Except ApiError α)
    (re : List ApiError) (d : Nat → Nat) (f attempt : Nat) (e : ApiError)
    (h : create_fn attempt = Except.error e) (hw : re.contains e = true) :
    backoffAux create_fn re d (f + 1) attempt =
      ((backoffAux create_fn re d f (attempt + 1)).1,
       d attempt :: (backoffAux create_fn re d f (attempt + 1)).2) := by
  simp [backoffAux, h, hw]

theorem processRouteLine_short (p : String)
    (h : (pySplitWS p).length < 3) : processRouteLine p = LineResult.skip := by
  cases hp : pySplitWS p with
  | nil => simp [processRouteLine, hp]
  | cons a tl =>
    cases tl with
    | nil => simp [processRouteLine, hp]
    | cons b tl2 =>
      cases tl2 with
      | nil => simp [processRouteLine, hp]
      | cons c tl3 =>
        rw [hp] at h
        simp only [List.length_cons] at h
        omega

theorem processRouteLines_append (pre tail : List String)
    (h : ∀ p ∈ pre, processRouteLine p = LineResult.skip) :
    processRouteLines (pre ++ tail) = processRouteLines tail := by
  induction pre with
  | nil => rfl
  | cons hd tl ih =>
    have hhd := h hd (by simp)
    rw [List.cons_append, processRouteLines, hhd]
    exact ih (fun p hp => h p (by simp [hp]))

theorem notnone_iff (v : PyVal) : notnone v = true ↔ v ≠ PyVal.none := by
  cases v <;> simp [notnone]

theorem find_map_set_self (d : List (String × PyVal)) (k : String) (v : PyVal)
    (h : d.any (fun kv => kv.1 = k) = true) :
    (d.map (fun kv => if kv.1 = k then (k, v) else kv)).find?
      (fun kv => kv.1 = k) = Option.some (k, v) := by
  induction d with
  | nil => simp at h
  | cons hd tl ih =>
    by_cases hk : hd.1 = k
    · simp [hk]
    · simp only [List.any_cons, Bool.or_eq_true, decide_eq_true_eq] at h
      rcases h with h | h
      · exact absurd h hk
      · simp only [List.map_cons, if_neg hk]
        rw [List.find?_cons_of_neg _ (by simp [hk])]
        exact ih h

theorem find_append_not_in (d : List (String × PyVal)) (k : String) (v : PyVal)
    (h : d.any (fun kv => kv.1 = k) = false) :
    (d ++ [(k, v)]).find? (fun kv => kv.1 = k) = Option.some (k, v) := by
  induction d with
  | nil => simp
  | cons hd tl ih =>
    simp only [List.any_cons, Bool.or_eq_false_iff, decide_eq_false_iff_not] at h
    rw [List.cons_append, List.find?_cons_of_neg _ (by simp [h.1])]
    exact ih (by simp [h.2])

theorem find_map_set_ne (d : List (String × PyVal)) (k k2 : String) (v : PyVal)
    (h : k ≠ k2) :
    (d.map (fun kv => if kv.1 = k2 then (k2, v) else kv)).find?
      (fun kv => kv.1 = k) = d.find? (fun kv => kv.1 = k) := by
  induction d with
  | nil => rfl
  | cons hd tl ih =>
    by_cases hk2 : hd.1 = k2
    · simp only [List.map_cons, if_pos hk2]
      rw [List.find?_cons_of_neg _ (by simp [Ne.symm h]),
        List.find?_cons_of_neg _ (by simp [hk2, Ne.symm h])]
      exact ih
    · simp only [List.map_cons, if_neg hk2]
      by_cases hk : hd.1 = k
      · rw [List.find?_cons_of_pos _ (by simp [hk]),
          List.find?_cons_of_pos _ (by simp [hk])]
      · rw [List.find?_cons_of_neg _ (by simp [hk]),
          List.find?_cons_of_neg _ (by simp [hk])]
        exact ih

theorem find_append_single_ne (d : List (String × PyVal)) (k k2 : String)
    (v : PyVal) (h : k ≠ k2) :
    (d ++ [(k2, v)]).find? (fun kv => kv.1 = k) =
      d.find? (fun kv => kv.1 = k) := by
  induction d with
  | nil => simp [List.find?, Ne.symm h]
  | cons hd tl ih =>
    by_cases hk : hd.1 = k
    · rw [List.cons_append, List.find?_cons_of_pos _ (by simp [hk]),
        List.find?_cons_of_pos _ (by simp [hk])]
    · rw [List.cons_append, List.find?_cons_of_neg _ (by simp [hk]),
        List.find?_cons_of_neg _ (by simp [hk])]
      exact ih

theorem dictGet_dictSet_self (d : List (String × PyVal)) (k : String)
    (v : PyVal) : dictGet (dictSet d k v) k = Option.some v := by
  unfold dictGet dictSet
  by_cases h : d.any (fun kv => kv.1 = k) = true
  · rw [if_pos h, find_map_set_self d k v h]
  · rw [if_neg h, find_append_not_in d k v (by revert h; cases d.any (fun kv => kv.1 = k) <;> simp)]

theorem dictGet_dictSet_ne (d : List (String × PyVal)) (k k2 : String)
    (v : PyVal) (h : k ≠ k2) : dictGet (dictSet d k2 v) k = dictGet d k := by
  unfold dictGet dictSet
  by_cases h2 : d.any (fun kv => kv.1 = k2) = true
  · rw [if_pos h2, find_map_set_ne d k k2 v h]
  · rw [if_neg h2, find_append_single_ne d k k2 v h]

theorem dictGet_none_of_no_key (d : List (String × PyVal)) (k : String)
    (h : ∀ kv ∈ d, kv.1 ≠ k) : dictGet d k = Option.none := by
  unfold dictGet
  induction d with
  | nil => rfl
  | cons hd tl ih =>
    rw [List.find?_cons_of_neg _ (by simp [h hd (by simp)])]
    exact ih (fun kv hkv => h kv (by simp [hkv]))

theorem dictGet_cons_pos (k0 : String) (v0 : PyVal)
    (tl : List (String × PyVal)) (k : String) (h : k0 = k) :
    dictGet ((k0, v0) :: tl) k = Option.some v0 := by
  unfold dictGet
  rw [List.find?_cons_of_pos _ (by simp [h])]

theorem dictGet_cons_neg (k0 : String) (v0 : PyVal)
    (tl : List (String × PyVal)) (k : String) (h : ¬k0 = k) :
    dictGet ((k0, v0) :: tl) k = dictGet tl k := by
  unfold dictGet
  rw [List.find?_cons_of_neg _ (by simp [h])]

theorem select_cons_pos (k0 : String) (v0 : PyVal)
    (tl : List (String × PyVal)) (h : notnone v0 = true) :
    select_values_notnone ((k0, v0) :: tl) =
      (k0, v0) :: select_values_notnone tl := by
  simp [select_values_notnone, List.filter_cons, h]

theorem select_cons_neg (k0 : String) (v0 : PyVal)
    (tl : List (String × PyVal)) (h : notnone v0 = false) :
    select_values_notnone ((k0, v0) :: tl) = select_values_notnone tl := by
  simp [select_values_notnone, List.filter_cons, h]

theorem dictGet_select_of_none (kw : List (String × PyVal)) (k : String)
    (hnodup : (kw.map Prod.fst).Nodup)
    (h : dictGet kw k = Option.some PyVal.none) :
    dictGet (select_values_notnone kw) k = Option.none := by
  induction kw with
  | nil => simp [dictGet, List.find?] at h
  | cons hd tl ih =>
    rcases hd with ⟨k0, v0⟩
    rw [List.map_cons, List.nodup_cons] at hnodup
    by_cases hk : k0 = k
    · have hv0 : v0 = PyVal.none := by
        rw [dictGet_cons_pos k0 v0 tl k hk] at h
        simpa using h
      subst hv0
      rw [select_cons_neg k0 PyVal.none tl (by simp [notnone])]
      apply dictGet_none_of_no_key
      intro kv hkv hkk
      have hmem : kv.1 ∈ List.map Prod.fst tl :=
        List.mem_map.mpr ⟨kv, List.mem_of_mem_filter hkv, rfl⟩
      rw [hkk, ← hk] at hmem
      exact hnodup.1 hmem
    · have htl : dictGet tl k = Option.some PyVal.none := by
        rw [dictGet_cons_neg k0 v0 tl k hk] at h
        exact h
      have ihr := ih hnodup.2 htl
      cases hn0 : notnone v0 with
      | true =>
        rw [select_cons_pos k0 v0 tl hn0, dictGet_cons_neg k0 v0 _ k hk]
        exact ihr
      | false =>
        rw [select_cons_neg k0 v0 tl hn0]
        exact ihr

theorem dictGet_select_of_some (kw : List (String × PyVal)) (k : String)
    (v : PyVal) (hv : v ≠ PyVal.none) (h : dictGet kw k = Option.some v) :
    dictGet (select_values_notnone kw) k = Option.some v := by
  induction kw with
  | nil => simp [dictGet, List.find?] at h
  | cons hd tl ih =>
    rcases hd with ⟨k0, v0⟩
    by_cases hk : k0 = k
    · have hv0 : v0 = v := by
        rw [dictGet_cons_pos k0 v0 tl k hk] at h
        simpa using h
      subst hv0
      rw [select_cons_pos k0 v0 tl ((notnone_iff v0).mpr hv),
        dictGet_cons_pos k0 v0 _ k hk]
    · have htl : dictGet tl k = Option.some v := by
        rw [dictGet_cons_neg k0 v0 tl k hk] at h
        exact h
      have ihr := ih htl
      cases hn0 : notnone v0 with
      | true =>
        rw [select_cons_pos k0 v0 tl hn0, dictGet_cons_neg k0 v0 _ k hk]
        exact ihr
      | false =>
        rw [select_cons_neg k0 v0 tl hn0]
        exact ihr

theorem query_ok_oracle (system_message user_message : Option String)
    (convert_system_to_user : Bool) (func_spec : Option FunctionSpec)
    (model_kwargs : List (String × PyVal))
    (oracle : Request → Nat → Except ApiError Completion)
    (delay : Nat → Nat) (maxRetries : Nat) (jsonLoads : String → Option Json)
    (completion : Completion)
    (h0 : oracle (buildRequest system_message user_message
        convert_system_to_user func_spec model_kwargs) 0 =
      Except.ok completion) :
    query system_message user_message convert_system_to_user func_spec
      model_kwargs oracle delay maxRetries jsonLoads =
      queryFinish func_spec jsonLoads (Except.ok completion, []) := by
  rw [query, backoff_create, backoffAux_ok _ _ _ _ _ _ h0]

theorem queryDecode_structured_iff (func_spec : Option FunctionSpec)
    (jsonLoads : String → Option Json) (c : Completion) (out : OutputType)
    (h : queryDecode func_spec jsonLoads c = Except.ok out) :
    (∃ j, out = OutputType.structured j) ↔ func_spec.isSome = true := by
  cases func_spec with
  | none =>
    constructor
    · rintro ⟨j, hj⟩
      exfalso
      cases hc : c.choices with
      | nil => simp [queryDecode, hc] at h
      | cons ch chs =>
        simp only [queryDecode, hc, Except.ok.injEq] at h
        rw [← h] at hj
        exact OutputType.noConfusion hj
    · intro hs; simp at hs
  | some spec =>
    refine ⟨fun _ => rfl, fun _ => ?_⟩
    cases hc : c.choices with
    | nil => simp [queryDecode, hc] at h
    | cons ch chs =>
      cases htc : ch.message.tool_calls with
      | nil => simp [queryDecode, hc, htc] at h
      | cons tc tcs =>
        by_cases hname : tc.function.name = spec.name
        · cases hjl : jsonLoads tc.function.arguments with
          | none => simp [queryDecode, hc, htc, hname, hjl] at h
          | some v =>
            simp only [queryDecode, hc, htc, if_pos hname, hjl,
              Except.ok.injEq] at h
            exact ⟨v, h.symm⟩
        · simp [queryDecode, hc, htc, hname] at h

/-! ### Claim theorems -/

/-- C3: the remote call is retried only when the raised failure belongs to
the fixed whitelist `OPENAI_TIMEOUT_EXCEPTIONS` (rate limiting, connection
failure, request timeout, server-side internal error); any other failure
propagates to the caller immediately and unmodified, with no retry delay;
whitelisted failures are retried with a backoff delay, the attempt count is
bounded, and a rate limit on attempts 0 and 1 followed by success yields the
successful result after two backoff delays. -/
theorem C3_retry_only_whitelist (call : Nat → Except ApiError Completion)
    (delay : Nat → Nat) (e : ApiError) (fuel f attempt : Nat)
    (jitter : Nat → Nat) :
    OPENAI_TIMEOUT_EXCEPTIONS =
      [ApiError.rateLimitError, ApiError.apiConnectionError,
       ApiError.apiTimeoutError, ApiError.internalServerError]
    ∧ (call attempt = Except.error e →
        OPENAI_TIMEOUT_EXCEPTIONS.contains e = false →
        backoffAux call OPENAI_TIMEOUT_EXCEPTIONS delay fuel attempt =
          (Except.error e, []))
    ∧ (call attempt = Except.error e →
        OPENAI_TIMEOUT_EXCEPTIONS.contains e = true →
        backoffAux call OPENAI_TIMEOUT_EXCEPTIONS delay (f + 1) attempt =
          ((backoffAux call OPENAI_TIMEOUT_EXCEPTIONS delay f (attempt + 1)).1,
           delay attempt ::
             (backoffAux call OPENAI_TIMEOUT_EXCEPTIONS delay f (attempt + 1)).2))
    ∧ (call attempt = Except.error e →
        backoffAux call OPENAI_TIMEOUT_EXCEPTIONS delay 0 attempt =
          (Except.error e, []))
    ∧ backoff_create c3Call OPENAI_TIMEOUT_EXCEPTIONS
        (expo_delay 1 60 jitter) 5 =
        (Except.ok demoCompletion,
         [expo_delay 1 60 jitter 0, expo_delay 1 60 jitter 1]) := by
  refine ⟨rfl, ?_, ?_, ?_, ?_⟩
  · exact fun h hw => backoffAux_noRetry call _ delay fuel attempt e h hw
  · exact fun h hw => backoffAux_retry call _ delay f attempt e h hw
  · exact fun h => backoffAux_zero call _ delay attempt e h
  · have h0 : c3Call 0 = Except.error ApiError.rateLimitError := rfl
    have h1 : c3Call 1 = Except.error ApiError.rateLimitError := rfl
    have h2 : c3Call 2 = Except.ok demoCompletion := rfl
    have hw : OPENAI_TIMEOUT_EXCEPTIONS.contains ApiError.rateLimitError = true := by decide
    rw [backoff_create,
      backoffAux_retry c3Call _ _ 4 0 _ h0 hw,
      backoffAux_retry c3Call _ _ 3 1 _ h1 hw,
      backoffAux_ok c3Call _ _ 3 2 _ h2]

/-- Witness for C3 at concrete inputs: a non-whitelisted failure propagates
immediately with no delay, and the rate-limited-twice scenario succeeds with
two backoff delays. -/
theorem C3_retry_only_whitelist_witness :
    backoffAux c3BadCall OPENAI_TIMEOUT_EXCEPTIONS demoDelay 7 0 =
      (Except.error ApiError.badRequestError, [])
    ∧ backoff_create c3Call OPENAI_TIMEOUT_EXCEPTIONS
        (expo_delay 1 60 (fun _ => 1)) 5 =
        (Except.ok demoCompletion,
         [expo_delay 1 60 (fun _ => 1) 0, expo_delay 1 60 (fun _ => 1) 1]) :=
  ⟨(C3_retry_only_whitelist c3BadCall demoDelay ApiError.badRequestError 7 0 0
      (fun _ => 1)).2.1 rfl (by decide),
   (C3_retry_only_whitelist c3Call demoDelay ApiError.badRequestError 7 0 0
      (fun _ => 1)).2.2.2.2⟩

/-- C4: the host resolver never raises (it is a total function on every
environment) and always returns an address: when the routing table is absent
or its processing aborts with an exception or falls through, the result is
the DNS tier's answer when DNS succeeds, and the hard-coded `"172.17.0.1"`
when DNS fails too. -/
theorem C4_resolver_never_fails (env : Env) (lines : List String)
    (a : String) :
    (env.routeFile = Option.none →
      get_docker_host_ip env = dnsFallback env.dns)
    ∧ (env.routeFile = Option.some lines →
        processRouteLines (lines.drop 1) = RouteTier.exc →
        get_docker_host_ip env = dnsFallback env.dns)
    ∧ (env.routeFile = Option.some lines →
        processRouteLines (lines.drop 1) = RouteTier.fallthrough →
        get_docker_host_ip env = dnsFallback env.dns)
    ∧ (env.dns = Option.some a → dnsFallback env.dns = a)
    ∧ (env.dns = Option.none → dnsFallback env.dns = "172.17.0.1") := by
  refine ⟨?_, ?_, ?_, ?_, ?_⟩
  · intro h; simp [get_docker_host_ip, routeTier, h]
  · intro h h2; rw [List.drop_one] at h2
    simp [get_docker_host_ip, routeTier, h, h2]
  · intro h h2; rw [List.drop_one] at h2
    simp [get_docker_host_ip, routeTier, h, h2]
  · intro h; simp [dnsFallback, h]
  · intro h; simp [dnsFallback, h]

/-- Witness for C4 at concrete environments: no routing table with DNS
available resolves to the DNS answer; with DNS failing too it resolves to
the hard-coded constant. -/
theorem C4_resolver_never_fails_witness :
    get_docker_host_ip c4EnvA = dnsFallback c4EnvA.dns
    ∧ dnsFallback c4EnvA.dns = "192.168.65.2"
    ∧ get_docker_host_ip c4EnvB = "172.17.0.1" :=
  ⟨(C4_resolver_never_fails c4EnvA [] "192.168.65.2").1 rfl,
   (C4_resolver_never_fails c4EnvA [] "192.168.65.2").2.2.2.1 rfl,
   ((C4_resolver_never_fails c4EnvB [] "x").1 rfl).trans
     ((C4_resolver_never_fails c4EnvB [] "x").2.2.2.2 rfl)⟩

/-- C9: a route-table line that splits into exactly 3 fields makes the flags
access raise an `IndexError` that aborts the whole routing-table tier, so the
resolver falls through to DNS even when an arbitrary later line (of `rest`)
is a qualifying default route; lines with fewer than 3 fields are skipped
individually. -/
theorem C9_three_field_line_aborts (hdr l p0 p1 p2 : String)
    (pre rest : List String) (dns : Option String)
    (hpre : ∀ p ∈ pre, (pySplitWS p).length < 3)
    (hl : pySplitWS l = [p0, p1, p2]) :
    processRouteLine l = LineResult.abort
    ∧ get_docker_host_ip ⟨Option.some (hdr :: (pre ++ l :: rest)), dns⟩ =
        dnsFallback dns
    ∧ (∀ p : String, (pySplitWS p).length < 3 →
        processRouteLine p = LineResult.skip) := by
  have habort : processRouteLine l = LineResult.abort := by
    simp [processRouteLine, hl]
  refine ⟨habort, ?_, fun p hp => processRouteLine_short p hp⟩
  have hskips : ∀ p ∈ pre, processRouteLine p = LineResult.skip :=
    fun p hp => processRouteLine_short p (hpre p hp)
  simp only [get_docker_host_ip, routeTier, List.drop_succ_cons, List.drop_zero]
  rw [processRouteLines_append pre (l :: rest) hskips, processRouteLines, habort]

/-- Witness for C9: the concrete 3-field line `c5Bad` aborts the tier and the
resolver answers from DNS although the later line `c5Good` qualifies. -/
theorem C9_three_field_line_aborts_witness :
    pySplitWS c5Bad = ["eth0", "00000000", "0100000A"]
    ∧ (processRouteLine c5Bad = LineResult.abort
       ∧ get_docker_host_ip
           ⟨Option.some (c5Hdr :: ([] ++ c5Bad :: [c5Good])),
            Option.some "10.10.10.10"⟩ =
           dnsFallback (Option.some "10.10.10.10")
       ∧ (∀ p : String, (pySplitWS p).length < 3 →
           processRouteLine p = LineResult.skip))
    ∧ processRouteLine c5Good = LineResult.ret "192.168.1.1" :=
  ⟨rfl,
   C9_three_field_line_aborts c5Hdr c5Bad "eth0" "00000000" "0100000A"
     [] [c5Good] (Option.some "10.10.10.10") (by simp) rfl,
   rfl⟩

/-- C5, counterexample to the claim as stated: the table `c5Env` contains the
row `c5Good` with destination `"00000000"` and both the up and gateway flags
set, yet the resolver does not return that row's byte-order-corrected gateway
`"192.168.1.1"` — the malformed 3-field line before it aborts the tier and
the DNS answer `"10.10.10.10"` is returned instead. -/
theorem C5_counterexample :
    pySplitWS c5Good =
      ["eth0", "00000000", "0101A8C0", "0003", "0", "0", "0", "00000000",
       "0", "0", "0"]
    ∧ parseHexNat "0003" = Option.some 3
    ∧ (3 : Nat) &&& 0x0003 = 0x0003
    ∧ parseHexNat "0101A8C0" = Option.some 16885952
    ∧ littleEndianIPv4 16885952 = "192.168.1.1"
    ∧ c5Env.routeFile = Option.some [c5Hdr, c5Bad, c5Good]
    ∧ get_docker_host_ip c5Env = "10.10.10.10"
    ∧ get_docker_host_ip c5Env ≠ littleEndianIPv4 16885952 :=
  ⟨rfl, rfl, rfl, rfl, rfl, rfl, rfl, by decide⟩

/-- C5 (amended): provided every line before the qualifying row is one the
loop skips (fewer than 3 fields, or a parseable non-qualifying row) and the
qualifying row itself is well formed — at least 4 fields, destination
`"00000000"`, hexadecimal flags with both 0x0001 and 0x0002 set, and a
hexadecimal gateway fitting 32 bits — the resolver returns that row's
byte-order-corrected gateway, for any position of the row and any suffix
`rest`; moreover a parseable row failing the destination or flag condition
is skipped, never returned. -/
theorem C5_amended_first_qualifying_row (hdr l p0 gw fl : String)
    (more pre rest : List String) (dns : Option String) (flags g : Nat)
    (hpre : ∀ p ∈ pre, processRouteLine p = LineResult.skip)
    (hl : pySplitWS l = p0 :: "00000000" :: gw :: fl :: more)
    (hfl : parseHexNat fl = Option.some flags)
    (hup : flags &&& 0x0003 = 0x0003)
    (hgw : parseHexNat gw = Option.some g)
    (hg : g < 2 ^ 32) :
    get_docker_host_ip ⟨Option.some (hdr :: (pre ++ l :: rest)), dns⟩ =
      littleEndianIPv4 g
    ∧ (∀ (q q0 q1 q2 q3 : String) (qmore : List String) (qflags : Nat),
        pySplitWS q = q0 :: q1 :: q2 :: q3 :: qmore →
        parseHexNat q3 = Option.some qflags →
        ¬(q1 = "00000000" ∧ qflags &&& 0x0003 = 0x0003) →
        processRouteLine q = LineResult.skip) := by
  constructor
  · have hg2 : g < 4294967296 := by
      have h32 : (2 : Nat) ^ 32 = 4294967296 := by norm_num
      rw [h32] at hg; exact hg
    have hret : processRouteLine l = LineResult.ret (littleEndianIPv4 g) := by
      simp [processRouteLine, hl, hfl, hup, hgw, hg2]
    simp only [get_docker_host_ip, routeTier, List.drop_succ_cons,
      List.drop_zero]
    rw [processRouteLines_append pre (l :: rest) hpre, processRouteLines, hret]
  · intro q q0 q1 q2 q3 qmore qflags hq hqfl hcond
    simp [processRouteLine, hq, hqfl, hcond]

/-- Witness for the amended C5: a well-formed table whose second row
qualifies resolves to `192.168.1.1`, and a row with gateway flags `0001`
(up only) is skipped. -/
theorem C5_amended_first_qualifying_row_witness :
    (get_docker_host_ip
        ⟨Option.some (c5Hdr :: ([] ++ c5Good :: [])), Option.none⟩ =
      littleEndianIPv4 16885952)
    ∧ littleEndianIPv4 16885952 = "192.168.1.1"
    ∧ processRouteLine "eth0 0000FEA9 00000000 0001 0 0 0 0000FFFF 0 0 0" =
        LineResult.skip :=
  ⟨(C5_amended_first_qualifying_row c5Hdr c5Good "eth0" "0101A8C0" "0003"
      ["0", "0", "0", "00000000", "0", "0", "0"] [] [] Option.none 3 16885952
      (by simp) rfl rfl (by decide) rfl (by decide)).1,
   rfl,
   (C5_amended_first_qualifying_row c5Hdr c5Good "eth0" "0101A8C0" "0003"
      ["0", "0", "0", "00000000", "0", "0", "0"] [] [] Option.none 3 16885952
      (by simp) rfl rfl (by decide) rfl (by decide)).2
     "eth0 0000FEA9 00000000 0001 0 0 0 0000FFFF 0 0 0"
     "eth0" "0000FEA9" "00000000" "0001" ["0", "0", "0", "0000FFFF", "0", "0", "0"]
     1 rfl rfl (by decide)⟩

/-- C10: the setup body calls `run` on the `asyncio.subprocess` module, which
has no such attribute, so the first invocation raises `AttributeError` before
any client is constructed; since `funcy.once` records completion before
executing the body, no later invocation re-attempts resolution or
construction (the step is the identity once done), and the client handle
stays `None` forever while exactly one resolution was performed. -/
theorem C10_setup_marks_done_before_body (env : Env) :
    asyncioSubprocessMembers.contains "run" = false
    ∧ (setup_openai_client_step env startSetupState).1 =
        Except.error (PyExc.attributeError
          "module asyncio.subprocess has no attribute run")
    ∧ (setup_openai_client_step env startSetupState).2.client = Option.none
    ∧ (setup_openai_client_step env startSetupState).2.done = true
    ∧ (∀ st : SetupState, st.done = true →
        setup_openai_client_step env st = (Except.ok (), st))
    ∧ (∀ n : Nat, (setupTrace env n).client = Option.none)
    ∧ (∀ n : Nat, 1 ≤ n → (setupTrace env n).resolutions = 1) := by
  have hrun : asyncioSubprocessMembers.contains "run" = false := by decide
  have hstep1 : setup_openai_client_step env startSetupState =
      (Except.error (PyExc.attributeError
        "module asyncio.subprocess has no attribute run"),
       ⟨true, Option.none, 1⟩) := rfl
  have hdone : ∀ st : SetupState, st.done = true →
      setup_openai_client_step env st = (Except.ok (), st) := by
    intro st h
    simp [setup_openai_client_step, h]
  have htrace : ∀ n : Nat, setupTrace env (n + 1) = ⟨true, Option.none, 1⟩ := by
    intro n
    induction n with
    | zero => simp only [setupTrace]; rw [hstep1]
    | succ m ih =>
      simp only [setupTrace] at ih ⊢
      rw [ih, hdone ⟨true, Option.none, 1⟩ rfl]
  refine ⟨hrun, by rw [hstep1], by rw [hstep1], by rw [hstep1], hdone, ?_, ?_⟩
  · intro n
    cases n with
    | zero => rfl
    | succ m => rw [htrace m]
  · intro n hn
    cases n with
    | zero => omega
    | succ m => rw [htrace m]

/-- Witness for C10 at a concrete environment: the first invocation raises,
later invocations are identities on the done state, and the client stays
`None` with a single resolution after five invocations. -/
theorem C10_setup_marks_done_before_body_witness :
    (setup_openai_client_step c6Env startSetupState).1 =
      Except.error (PyExc.attributeError
        "module asyncio.subprocess has no attribute run")
    ∧ setup_openai_client_step c6Env ⟨true, Option.none, 1⟩ =
        (Except.ok (), ⟨true, Option.none, 1⟩)
    ∧ (setupTrace c6Env 5).client = Option.none
    ∧ (setupTrace c6Env 5).resolutions = 1 :=
  ⟨(C10_setup_marks_done_before_body c6Env).2.1,
   (C10_setup_marks_done_before_body c6Env).2.2.2.2.1 ⟨true, Option.none, 1⟩ rfl,
   (C10_setup_marks_done_before_body c6Env).2.2.2.2.2.1 5,
   (C10_setup_marks_done_before_body c6Env).2.2.2.2.2.2 5 (by decide)⟩

/-- C6, behaviour of the code at the failing input (the first ever call to
`_setup_openai_client`, in any environment — here a concrete one): the call
raises `AttributeError` out of `subprocess.run` (the `asyncio.subprocess`
module has no `run` member), so no client is ever constructed — after any
number of invocations the shared handle is still `None`, with exactly one
host resolution performed — contradicting the claim that all callers observe
one constructed client bound to the resolved endpoint. -/
theorem C6_setup_constructs_no_client :
    (setup_openai_client_step c6Env startSetupState).1 =
      Except.error (PyExc.attributeError
        "module asyncio.subprocess has no attribute run")
    ∧ (setupTrace c6Env 1).client = Option.none
    ∧ (setupTrace c6Env 5).client = Option.none
    ∧ (setupTrace c6Env 5).resolutions = 1
    ∧ asyncioSubprocessMembers.contains "run" = false :=
  ⟨rfl, rfl, rfl, rfl, rfl⟩

/-- C1: with a function spec supplied and the remote call succeeding on the
first attempt, `query` raises an assertion-style contract violation carrying
the offending message when the first choice has no tool call; raises the
name-mismatch contract violation when the first tool call's name differs from
the spec's name; and returns the decoded mapping when the name matches and
the arguments string decodes.  In the two violation cases the slept-delay
list is empty and only attempt 0 of the oracle is consulted: neither
violation is retried. -/
theorem C1_function_spec_contract (spec : FunctionSpec)
    (sys usr : Option String) (cv : Bool) (kw : List (String × PyVal))
    (oracle : Request → Nat → Except ApiError Completion)
    (delay : Nat → Nat) (maxRetries : Nat) (jL : String → Option Json)
    (completion : Completion) (ch : Choice) (chs : List Choice)
    (h0 : oracle (buildRequest sys usr cv (Option.some spec) kw) 0 =
      Except.ok completion)
    (hch : completion.choices = ch :: chs) :
    (ch.message.tool_calls = [] →
      query sys usr cv (Option.some spec) kw oracle delay maxRetries jL =
        (Except.error (QError.assertionError
          (AssertDetail.emptyToolCalls ch.message)), []))
    ∧ (∀ (tc : ToolCall) (tcs : List ToolCall),
        ch.message.tool_calls = tc :: tcs → tc.function.name ≠ spec.name →
        query sys usr cv (Option.some spec) kw oracle delay maxRetries jL =
          (Except.error (QError.assertionError AssertDetail.nameMismatch), []))
    ∧ (∀ (tc : ToolCall) (tcs : List ToolCall) (v : Json),
        ch.message.tool_calls = tc :: tcs → tc.function.name = spec.name →
        jL tc.function.arguments = Option.some v →
        query sys usr cv (Option.some spec) kw oracle delay maxRetries jL =
          (Except.ok (mkResult (OutputType.structured v) completion), [])) := by
  have hq := query_ok_oracle sys usr cv (Option.some spec) kw oracle delay
    maxRetries jL completion h0
  refine ⟨?_, ?_, ?_⟩
  · intro htc
    rw [hq]
    simp [queryFinish, queryDecode, hch, htc]
  · intro tc tcs htc hname
    rw [hq]
    simp [queryFinish, queryDecode, hch, htc, hname]
  · intro tc tcs v htc hname hjl
    rw [hq]
    simp [queryFinish, queryDecode, hch, htc, hname, hjl]

/-- Witness for C1 at concrete completions: no tool call raises the
assertion carrying the message, a tool call named `"other_fn"` raises the
name-mismatch assertion, and a `"get_weather"` call with arguments
`{"city": "Paris"}` returns the decoded mapping, all with no retry delay. -/
theorem C1_function_spec_contract_witness :
    query (Option.some "s") (Option.some "u") false (Option.some demoSpec) []
        (constOracle emptyToolCompletion) demoDelay 3 jsonLoadsFlat =
      (Except.error (QError.assertionError
        (AssertDetail.emptyToolCalls emptyToolMsg)), [])
    ∧ query (Option.some "s") (Option.some "u") false (Option.some demoSpec) []
        (constOracle mismatchCompletion) demoDelay 3 jsonLoadsFlat =
      (Except.error (QError.assertionError AssertDetail.nameMismatch), [])
    ∧ query (Option.some "s") (Option.some "u") false (Option.some demoSpec) []
        (constOracle demoCompletion) demoDelay 3 jsonLoadsFlat =
      (Except.ok (mkResult (OutputType.structured weatherJson)
        demoCompletion), []) :=
  ⟨(C1_function_spec_contract demoSpec (Option.some "s") (Option.some "u")
      false [] (constOracle emptyToolCompletion) demoDelay 3 jsonLoadsFlat
      emptyToolCompletion ⟨emptyToolMsg⟩ [] rfl rfl).1 rfl,
   (C1_function_spec_contract demoSpec (Option.some "s") (Option.some "u")
      false [] (constOracle mismatchCompletion) demoDelay 3 jsonLoadsFlat
      mismatchCompletion ⟨mismatchMsg⟩ [] rfl rfl).2.1
     ⟨⟨"other_fn", weatherArgs⟩⟩ [] rfl (by decide),
   (C1_function_spec_contract demoSpec (Option.some "s") (Option.some "u")
      false [] (constOracle demoCompletion) demoDelay 3 jsonLoadsFlat
      demoCompletion ⟨demoToolMsg⟩ [] rfl rfl).2.2
     ⟨⟨"get_weather", weatherArgs⟩⟩ [] weatherJson rfl rfl rfl⟩

/-- C2: whenever `query` returns successfully, its output is structured if
and only if a function spec was supplied on that call; without a function
spec the decode step is independent of the JSON decoder (no structured
decode is ever attempted) and the output is exactly the first choice's
free-text content (which may be null). -/
theorem C2_output_structured_iff_func_spec (sys usr : Option String)
    (cv : Bool) (fs : Option FunctionSpec) (kw : List (String × PyVal))
    (oracle : Request → Nat → Except ApiError Completion) (delay : Nat → Nat)
    (maxRetries : Nat) (jL jL2 : String → Option Json) (r : QueryResult)
    (ds : List Nat) (c : Completion) (ch : Choice) (chs : List Choice) :
    (query sys usr cv fs kw oracle delay maxRetries jL = (Except.ok r, ds) →
      ((∃ j, r.output = OutputType.structured j) ↔ fs.isSome = true))
    ∧ queryDecode Option.none jL c = queryDecode Option.none jL2 c
    ∧ (c.choices = ch :: chs →
        queryDecode Option.none jL c =
          Except.ok (OutputType.text ch.message.content)) := by
  refine ⟨?_, ?_, ?_⟩
  · intro h
    unfold query queryFinish at h
    rcases hb : backoff_create
        (oracle (buildRequest sys usr cv fs kw))
        OPENAI_TIMEOUT_EXCEPTIONS delay maxRetries with ⟨b1, b2⟩
    rw [hb] at h
    cases b1 with
    | error e => simp at h
    | ok comp =>
      simp only [] at h
      cases hd : queryDecode fs jL comp with
      | error e =>
        rw [hd] at h
        simp at h
      | ok out =>
        rw [hd] at h
        simp only [Prod.mk.injEq, Except.ok.injEq] at h
        have hiff := queryDecode_structured_iff fs jL comp out hd
        rw [← h.1]
        simpa [mkResult] using hiff
  · cases hc : c.choices <;> simp [queryDecode, hc]
  · intro hc
    simp [queryDecode, hc]

/-- Witness for C2: a call with a function spec whose structured result
satisfies the iff, decoder-independence and the free-text equation on a
concrete completion whose content is `"hello"`. -/
theorem C2_output_structured_iff_func_spec_witness :
    query (Option.some "s") (Option.some "u") false (Option.some demoSpec) []
        (constOracle demoCompletion) demoDelay 3 jsonLoadsFlat =
      (Except.ok (mkResult (OutputType.structured weatherJson)
        demoCompletion), [])
    ∧ ((∃ j, (mkResult (OutputType.structured weatherJson)
          demoCompletion).output = OutputType.structured j) ↔
        (Option.some demoSpec).isSome = true)
    ∧ queryDecode Option.none jsonLoadsFlat emptyToolCompletion =
        queryDecode Option.none (fun _ => Option.none) emptyToolCompletion
    ∧ queryDecode Option.none jsonLoadsFlat emptyToolCompletion =
        Except.ok (OutputType.text (Option.some "hello")) :=
  ⟨rfl,
   (C2_output_structured_iff_func_spec (Option.some "s") (Option.some "u")
      false (Option.some demoSpec) [] (constOracle demoCompletion) demoDelay 3
      jsonLoadsFlat (fun _ => Option.none)
      (mkResult (OutputType.structured weatherJson) demoCompletion) []
      emptyToolCompletion ⟨emptyToolMsg⟩ []).1 rfl,
   (C2_output_structured_iff_func_spec (Option.some "s") (Option.some "u")
      false (Option.some demoSpec) [] (constOracle demoCompletion) demoDelay 3
      jsonLoadsFlat (fun _ => Option.none)
      (mkResult (OutputType.structured weatherJson) demoCompletion) []
      emptyToolCompletion ⟨emptyToolMsg⟩ []).2.1,
   (C2_output_structured_iff_func_spec (Option.some "s") (Option.some "u")
      false (Option.some demoSpec) [] (constOracle demoCompletion) demoDelay 3
      jsonLoadsFlat (fun _ => Option.none)
      (mkResult (OutputType.structured weatherJson) demoCompletion) []
      emptyToolCompletion ⟨emptyToolMsg⟩ []).2.2 rfl⟩

/-- C8: with a function spec supplied, the remote call succeeding on attempt
0, the first tool call's name matching, and the arguments string failing to
decode, `query` raises the decode error carrying the raw offending payload
(the payload that is also logged); it is not retried (no delays slept) and no
default output is substituted. -/
theorem C8_malformed_arguments (spec : FunctionSpec) (sys usr : Option String)
    (cv : Bool) (kw : List (String × PyVal))
    (oracle : Request → Nat → Except ApiError Completion)
    (delay : Nat → Nat) (maxRetries : Nat) (jL : String → Option Json)
    (completion : Completion) (ch : Choice) (chs : List Choice)
    (tc : ToolCall) (tcs : List ToolCall)
    (h0 : oracle (buildRequest sys usr cv (Option.some spec) kw) 0 =
      Except.ok completion)
    (hch : completion.choices = ch :: chs)
    (htc : ch.message.tool_calls = tc :: tcs)
    (hname : tc.function.name = spec.name)
    (hbad : jL tc.function.arguments = Option.none) :
    query sys usr cv (Option.some spec) kw oracle delay maxRetries jL =
      (Except.error (QError.jsonDecodeError tc.function.arguments), []) := by
  rw [query_ok_oracle sys usr cv (Option.some spec) kw oracle delay maxRetries
    jL completion h0]
  simp [queryFinish, queryDecode, hch, htc, hname, hbad]

/-- Witness for C8: the malformed payload `{city:}` fails to decode and
`query` raises the decode error carrying it, with no retry delay. -/
theorem C8_malformed_arguments_witness :
    jsonLoadsFlat "\x7bcity:\x7d" = Option.none
    ∧ query (Option.some "s") (Option.some "u") false (Option.some demoSpec) []
        (constOracle badArgsCompletion) demoDelay 3 jsonLoadsFlat =
      (Except.error (QError.jsonDecodeError "\x7bcity:\x7d"), []) :=
  ⟨rfl,
   C8_malformed_arguments demoSpec (Option.some "s") (Option.some "u") false
     [] (constOracle badArgsCompletion) demoDelay 3 jsonLoadsFlat
     badArgsCompletion ⟨badArgsMsg⟩ [] ⟨⟨"get_weather", "\x7bcity:\x7d"⟩⟩ []
     rfl rfl rfl rfl rfl⟩

/-- C7, counterexample to the claim as stated: with a function spec supplied
and the model-options mapping `{"tools": None}`, the key `"tools"` is not
dropped from the transmitted keyword arguments — the injected tool
declaration overwrites it — contradicting "every key whose value is None is
dropped before transmission". -/
theorem C7_counterexample :
    dictGet (filtered_kwargs (Option.some demoSpec) [("tools", PyVal.none)])
      "tools" = Option.some (PyVal.list [demoSpec.as_openai_tool_dict])
    ∧ dictGet (filtered_kwargs (Option.some demoSpec) [("tools", PyVal.none)])
      "tools" ≠ Option.none :=
  ⟨rfl, fun hx => Option.noConfusion hx⟩

/-- C7 (amended): for every model-options mapping with distinct keys, every
key other than `"tools"` and `"tool_choice"` whose value is `None` is dropped
before transmission and every such key with a non-`None` value is transmitted
unchanged; when a function spec is supplied the keys `"tools"` and
`"tool_choice"` carry the injected tool declaration and forced tool choice
(overriding any caller-supplied value); the transmitted request carries
exactly these keyword arguments; and
`{"temperature": None, "max_tokens": 100}` is transmitted with only
`max_tokens` present. -/
theorem C7_amended_option_filtering (fs : Option FunctionSpec)
    (kw : List (String × PyVal)) (k : String) (v : PyVal)
    (sys usr : Option String) (cv : Bool)
    (hnodup : (kw.map Prod.fst).Nodup)
    (ht : k ≠ "tools") (htc2 : k ≠ "tool_choice") :
    (dictGet kw k = Option.some PyVal.none →
      dictGet (filtered_kwargs fs kw) k = Option.none)
    ∧ (dictGet kw k = Option.some v → v ≠ PyVal.none →
        dictGet (filtered_kwargs fs kw) k = Option.some v)
    ∧ (∀ spec : FunctionSpec, fs = Option.some spec →
        dictGet (filtered_kwargs fs kw) "tools" =
          Option.some (PyVal.list [spec.as_openai_tool_dict])
        ∧ dictGet (filtered_kwargs fs kw) "tool_choice" =
          Option.some spec.openai_tool_choice_dict)
    ∧ (buildRequest sys usr cv fs kw).kwargs = filtered_kwargs fs kw
    ∧ filtered_kwargs Option.none
        [("temperature", PyVal.none), ("max_tokens", PyVal.int 100)] =
        [("max_tokens", PyVal.int 100)] := by
  refine ⟨?_, ?_, ?_, rfl, rfl⟩
  · intro h
    have hsel := dictGet_select_of_none kw k hnodup h
    cases fs with
    | none => exact hsel
    | some spec =>
      simp only [filtered_kwargs]
      rw [dictGet_dictSet_ne _ _ _ _ htc2, dictGet_dictSet_ne _ _ _ _ ht]
      exact hsel
  · intro h hv
    have hsel := dictGet_select_of_some kw k v hv h
    cases fs with
    | none => exact hsel
    | some spec =>
      simp only [filtered_kwargs]
      rw [dictGet_dictSet_ne _ _ _ _ htc2, dictGet_dictSet_ne _ _ _ _ ht]
      exact hsel
  · intro spec hspec
    subst hspec
    constructor
    · simp only [filtered_kwargs]
      rw [dictGet_dictSet_ne _ _ _ _ (by decide : "tools" ≠ "tool_choice"),
        dictGet_dictSet_self]
    · simp only [filtered_kwargs]
      rw [dictGet_dictSet_self]

/-- Witness for the amended C7: with a function spec and the mapping
`{"temperature": None, "max_tokens": 100}`, `temperature` is dropped,
`max_tokens` is transmitted unchanged, and without a function spec the
transmitted mapping is exactly `{"max_tokens": 100}`. -/
theorem C7_amended_option_filtering_witness :
    dictGet (filtered_kwargs (Option.some demoSpec)
      [("temperature", PyVal.none), ("max_tokens", PyVal.int 100)])
      "temperature" = Option.none
    ∧ dictGet (filtered_kwargs (Option.some demoSpec)
        [("temperature", PyVal.none), ("max_tokens", PyVal.int 100)])
        "max_tokens" = Option.some (PyVal.int 100)
    ∧ filtered_kwargs Option.none
        [("temperature", PyVal.none), ("max_tokens", PyVal.int 100)] =
        [("max_tokens", PyVal.int 100)] :=
  ⟨(C7_amended_option_filtering (Option.some demoSpec)
      [("temperature", PyVal.none), ("max_tokens", PyVal.int 100)]
      "temperature" PyVal.none Option.none Option.none false (by decide)
      (by decide) (by decide)).1 rfl,
   (C7_amended_option_filtering (Option.some demoSpec)
      [("temperature", PyVal.none), ("max_tokens", PyVal.int 100)]
      "max_tokens" (PyVal.int 100) Option.none Option.none false (by decide)
      (by decide) (by decide)).2.1 rfl (fun hx => PyVal.noConfusion hx),
   (C7_amended_option_filtering (Option.some demoSpec)
      [("temperature", PyVal.none), ("max_tokens", PyVal.int 100)]
      "max_tokens" (PyVal.int 100) Option.none Option.none false (by decide)
      (by decide) (by decide)).2.2.2.2⟩

end AideOpenAI
